import Mathlib

/-!
Verification of the Button component of `govuk-frontend`
(`src/packages/govuk-frontend/dist/govuk/components/button/button.bundle.mjs`).

The JavaScript is shallowly embedded: JS objects used as configuration maps
become association lists `List (String × CVal)` (JS objects never have
duplicate keys; `Object.keys` iteration order for the non-integer-like keys
used here is insertion order, which the association-list order mirrors),
DOM state touched by the component becomes explicit record types, and the
host browser facilities (`Number` parsing, `window.setTimeout` identifiers)
become explicit function/value parameters.
-/

namespace GovukButton

/-- Values of a JavaScript configuration object, as consumed by
`mergeConfigs` / `normaliseString`: null, booleans, numbers, strings,
arrays and (nested) objects.  Numbers are abstracted as `Int`; no claim
depends on the arithmetic of JS doubles. -/
inductive CVal where
  | vnull : CVal
  | vbool : Bool → CVal
  | vnum : Int → CVal
  | vstr : String → CVal
  | varr : List CVal → CVal
  | vobj : List (String × CVal) → CVal

/-- A JavaScript object viewed as an association list of its own
enumerable keys, in `Object.keys` order. -/
abbrev Obj := List (String × CVal)

/-- Embeds `isObject` (button.bundle.mjs lines 93-95): true for a non-null,
non-array object.  `vnull` is excluded by the `!!option` guard in the
source. -/
def isObject : CVal → Bool
  | CVal.vobj _ => true
  | _ => false

/-- Embeds the JS assignment `obj[key] = v`: replace the value at an
existing key in place (JS keeps the original insertion position of the
key), or append a new key at the end. -/
def setKey : Obj → String → CVal → Obj
  | [], k, v => [(k, v)]
  | (k', v') :: rest, k, v =>
      if k' = k then (k', v) :: rest else (k', v') :: setKey rest k v

/-- Embeds `mergeConfigs` (lines 30-44) specialised to two objects, the
first being the accumulated `formattedConfigObject` and the second the
incoming `configObject`: each key of the second is folded in; when both
the accumulated value and the override are non-array objects they are
merged recursively, otherwise the override replaces the value.  (The
source copies the first object into a fresh `{}` first; as JS objects
have no duplicate keys, that copy is the identity.) -/
def merge2 : Obj → Obj → Obj
  | acc, [] => acc
  | acc, (k, CVal.vobj o2) :: rest =>
      match List.lookup k acc with
      | some (CVal.vobj o1) =>
          merge2 (setKey acc k (CVal.vobj (merge2 o1 o2))) rest
      | _ => merge2 (setKey acc k (CVal.vobj o2)) rest
  | acc, (k, v) :: rest => merge2 (setKey acc k v) rest
termination_by _ b => sizeOf b
decreasing_by all_goals (simp_wf; try omega)

/-- Embeds the variadic `mergeConfigs(...configObjects)` (lines 30-44):
fold every config object into an initially empty accumulator. -/
def mergeConfigs (configObjects : List Obj) : Obj :=
  configObjects.foldl merge2 []

/-- How `mergeConfigs` combines the (optional) value already accumulated
for one key with one incoming value for that key: both non-array objects
merge recursively, otherwise the later value wins. -/
def combineV : Option CVal → CVal → CVal
  | some (CVal.vobj o1), CVal.vobj o2 => CVal.vobj (merge2 o1 o2)
  | _, v => v

/-- Modelled from the spec: per-key combination of two priority-ordered
sources ("for each key the final value comes from the highest-priority
source that sets it, except that when both the accumulated value and the
override are non-array objects they are merged key-wise (recursively)").
`none` means the source does not set the key. -/
def combineSpec : Option CVal → Option CVal → Option CVal
  | a, none => a
  | some (CVal.vobj x), some (CVal.vobj y) => some (CVal.vobj (merge2 x y))
  | _, some v => some v

/-- A JS object has no duplicate keys. -/
def keysNodup (o : Obj) : Prop := (o.map Prod.fst).Nodup

instance (o : Obj) : Decidable (keysNodup o) := by
  unfold keysNodup; infer_instance

/-- The `type` field of a `SchemaProperty` (lines 108-113). -/
inductive SchemaType where
  | boolean | number | object | string
deriving DecidableEq

/-- Embeds JS `String.prototype.trim()`: drop leading and trailing
whitespace.  (Defined on the character list so that it evaluates by
kernel reduction; the ASCII whitespace of `Char.isWhitespace` covers the
characters appearing in this development.) -/
def jsTrim (s : String) : String :=
  String.mk
    (((s.data.dropWhile Char.isWhitespace).reverse.dropWhile
        Char.isWhitespace).reverse)

/-- Embeds `normaliseString(value, property)` (lines 1-24).  The host
builtins are passed in: `num s` models `Number(s)` (its value on
non-finite results is irrelevant, see `finite`) and `finite s` models
`isFinite(Number(s))`.  As in the source, when no schema type is given
the trial-parsing checks run in order (boolean first, then number, the
number check overwriting), and the default branch returns the original,
untrimmed string. -/
def normaliseString (num : String → Int) (finite : String → Bool)
    (value : String) (property : Option SchemaType) : CVal :=
  let trimmedValue := jsTrim value
  let outputType0 : Option SchemaType := property
  let outputType :=
    if outputType0 = none then
      let tb := if trimmedValue == "true" || trimmedValue == "false" then
          some SchemaType.boolean else outputType0
      if trimmedValue.length ≠ 0 ∧ finite trimmedValue = true then
        some SchemaType.number else tb
    else outputType0
  match outputType with
  | some SchemaType.boolean => CVal.vbool (trimmedValue == "true")
  | some SchemaType.number => CVal.vnum (num trimmedValue)
  | _ => CVal.vstr value

/-- Models `$element.type` as read by `validateElement` (lines 315-324):
`checkbox` and `radio` are the two cases the code distinguishes; `other`
stands for every other value (text inputs, etc.), which fall through to
the value check. -/
inductive InputType where
  | checkbox | radio | other
deriving DecidableEq

/-- A form control as observed by `validateElement`: its `type`, its
`checked` state, its `name` attribute (`none` when absent), its string
value, the form group it sits in (`closest('.govuk-form-group')`,
`none` when there is none) and an identity used to record focus. -/
structure Elem where
  eid : Nat
  itype : InputType
  checked : Bool
  nameAttr : Option String
  value : String
  groupId : Option Nat
deriving DecidableEq

/-- The static part of the form, as queried during validation:
`bySelector` maps a CSS selector to the first matching element
(`form.querySelector`, `none` when the lookup fails), and `inputs` lists
the form's input elements, against which
`querySelector('input[name="n"]:checked')` is answered.  Selectors are
assumed to target form controls, so the decorations inserted by
`showErrors` (tracked separately in `FormState`) do not change these
query results. -/
structure Form where
  bySelector : List (String × Elem)
  inputs : List Elem
deriving DecidableEq

/-- True iff `form.querySelector('input[name="n"]:checked')` finds an
element: some input of the form has name `n` and is checked. -/
def hasCheckedInputNamed (form : Form) (n : String) : Bool :=
  form.inputs.any fun i => i.nameAttr == some n && i.checked

/-- The merged Button configuration in its schema shape (lines 435-456):
all four boolean options plus the two string-to-string maps. -/
structure ButtonConfig where
  preventDoubleClick : Bool
  enableValidation : Bool
  validationSelectors : List (String × String)
  validationMessages : List (String × String)
  focusOnError : Bool
  showErrorSummary : Bool
deriving DecidableEq

/-- Embeds `Button.defaults` (lines 427-434) as a configuration object,
for use with `mergeConfigs`. -/
def buttonDefaultsObj : Obj :=
  [("preventDoubleClick", CVal.vbool false),
   ("enableValidation", CVal.vbool false),
   ("validationSelectors", CVal.vobj []),
   ("validationMessages", CVal.vobj []),
   ("focusOnError", CVal.vbool true),
   ("showErrorSummary", CVal.vbool true)]

/-- Embeds `validateElement($element, field)` (lines 315-324): a checkbox
is valid iff checked; a radio is valid iff it has a truthy (non-null,
non-empty) `name` and some input of that name in the form is checked;
anything else is valid iff its trimmed value is non-empty. -/
def validateElement (form : Form) (e : Elem) : Bool :=
  match e.itype with
  | InputType.checkbox => e.checked
  | InputType.radio =>
      match e.nameAttr with
      | some n => if n = "" then false else hasCheckedInputNamed form n
      | none => false
  | InputType.other => jsTrim e.value != ""

/-- A validation error as pushed by `handleFormSubmit` (lines 293-297):
field name, the invalid element, and the message. -/
structure Err where
  field : String
  element : Elem
  message : String
deriving DecidableEq

/-- The default message of line 296. -/
def defaultRequiredMessage : String := "This field is required"

/-- Embeds the message choice of line 296:
`this.config.validationMessages?.[field] || 'This field is required'`.
A configured empty string is falsy in JS, so it also falls back to the
default. -/
def fieldMessage (cfg : ButtonConfig) (field : String) : String :=
  match List.lookup field cfg.validationMessages with
  | some m => if m = "" then defaultRequiredMessage else m
  | none => defaultRequiredMessage

/-- One iteration of the error-collection loop of `handleFormSubmit`
(lines 286-299) for the entry `fs = (field, selector)`: skip when the
selector matches nothing (`if (!$element) continue`), otherwise validate
the found element and push an error when it is invalid. -/
def validateStep (cfg : ButtonConfig) (form : Form) (acc : List Err)
    (fs : String × String) : List Err :=
  match List.lookup fs.2 form.bySelector with
  | none => acc
  | some e =>
      if validateElement form e then acc
      else acc ++ [⟨fs.1, e, fieldMessage cfg fs.1⟩]

/-- Embeds the error-collection loop of `handleFormSubmit` (lines
286-299): iterate the configured `(field, selector)` entries in order,
accumulating the errors. -/
def computeErrors (cfg : ButtonConfig) (form : Form) : List Err :=
  cfg.validationSelectors.foldl (validateStep cfg form) []

/-- One `.govuk-form-group` of the form: whether it carries the
`govuk-form-group--error` class, the `.govuk-error-message` texts
currently inserted in it, and whether it contains a field
(`.govuk-input, .govuk-fieldset`) in front of which messages can be
inserted. -/
structure Group where
  gid : Nat
  hasErrorClass : Bool
  inlineErrors : List String
  hasField : Bool
deriving DecidableEq

/-- The mutable error decorations of the form: its groups, the
`.govuk-error-summary` element at the top of the form (`none` when
absent, otherwise the listed messages), and which element currently has
focus. -/
@[ext]
structure FormState where
  groups : List Group
  summary : Option (List String)
  focused : Option Nat
deriving DecidableEq

/-- The effect of `clearErrors` on one group: drop the error class and
every inline `.govuk-error-message`. -/
def resetGroup (g : Group) : Group :=
  { g with hasErrorClass := false, inlineErrors := [] }

/-- Embeds `clearErrors` (lines 325-332): strip the error class from
every group, remove every `.govuk-error-message`, and remove the
`.govuk-error-summary` if present.  Focus is untouched. -/
def clearErrors (st : FormState) : FormState :=
  { st with groups := st.groups.map resetGroup, summary := none }

/-- Embeds one iteration of the `showErrors` loop (lines 339-354) on the
group list: find the element's closest group (skip when there is none),
add the error class, and insert the message before the group's field
when the group has one. -/
def addErrorToGroups (gs : List Group) (e : Err) : List Group :=
  match e.element.groupId with
  | none => gs
  | some gid =>
      gs.map fun g =>
        if g.gid = gid then
          { g with hasErrorClass := true,
                   inlineErrors :=
                     if g.hasField then g.inlineErrors ++ [e.message]
                     else g.inlineErrors }
        else g

/-- Embeds `createErrorSummary` (lines 364-385): build the summary from
the error messages and insert it as the first child of the form (the
`summary` slot of `FormState`). -/
def createErrorSummary (errors : List Err) (st : FormState) : FormState :=
  { st with summary := some (errors.map Err.message) }

/-- Embeds `showErrors(errors)` (lines 338-358): decorate each error's
group, then create the summary when `showErrorSummary` is set and the
list is non-empty. -/
def showErrors (cfg : ButtonConfig) (errors : List Err) (st : FormState) :
    FormState :=
  let st1 := { st with groups := errors.foldl addErrorToGroups st.groups }
  if cfg.showErrorSummary && !errors.isEmpty then
    createErrorSummary errors st1
  else st1

/-- Embeds `handleFormSubmit(event)` (lines 281-307): clear prior
decorations, collect the errors, and when any exist prevent the default,
render them, and focus the first invalid element when `focusOnError` is
set (`errors.length > 0` holds in that branch).  Returns the new form
state and whether `event.preventDefault()` was called. -/
def handleFormSubmit (cfg : ButtonConfig) (form : Form) (st : FormState) :
    FormState × Bool :=
  let cleared := clearErrors st
  match computeErrors cfg form with
  | [] => (cleared, false)
  | e0 :: rest =>
      let shown := showErrors cfg (e0 :: rest) cleared
      let focusedSt :=
        if cfg.focusOnError then { shown with focused := some e0.element.eid }
        else shown
      (focusedSt, true)

/-- Embeds `DEBOUNCE_TIMEOUT_IN_SECONDS` (line 242); the timer of
`debounce` is requested for `DEBOUNCE_TIMEOUT_IN_SECONDS * 1000`
milliseconds. -/
def DEBOUNCE_TIMEOUT_IN_SECONDS : Nat := 1

/-- The per-instance debounce state: `debounceFormSubmitTimer` is `null`
(`none`) or the identifier returned by `window.setTimeout`. -/
structure BtnState where
  debounceFormSubmitTimer : Option Nat
deriving DecidableEq

/-- JS truthiness of the `number | null` timer field, as tested by
`if (this.debounceFormSubmitTimer)` (line 400): `null` and `0` are
falsy.  (Browsers return positive timer identifiers.) -/
def jsTruthyTimer : Option Nat → Bool
  | none => false
  | some n => n != 0

/-- Embeds `debounce(event)` (lines 396-407).  `freshId` is the
identifier the host's `setTimeout` returns for the 1-second timer.
Result: the JS return value (`undefined`/`false` as `Option Bool`), the
new debounce state, and whether `event.preventDefault()` was called. -/
def debounce (cfg : ButtonConfig) (btn : BtnState) (freshId : Nat) :
    Option Bool × BtnState × Bool :=
  if !cfg.preventDoubleClick then (none, btn, false)
  else if jsTruthyTimer btn.debounceFormSubmitTimer then
    (some false, btn, true)
  else (none, { debounceFormSubmitTimer := some freshId }, false)

/-- The `setTimeout` callback of lines 404-406 firing after the 1-second
window: reset the timer field to `null`. -/
def timerExpire (btn : BtnState) : BtnState :=
  { btn with debounceFormSubmitTimer := none }

/-- The surroundings `handleClick` consults: whether
`this.$form` (`$root.closest('form')`) is non-null, and
`$root.getAttribute('type')`. -/
structure ClickEnv where
  hasForm : Bool
  typeAttr : Option String
deriving DecidableEq

/-- Everything one click changes: the debounce state, the form's error
decorations, whether the event's default was prevented (by either
`debounce` or `handleFormSubmit`), and whether submit validation ran. -/
structure ClickOut where
  btn : BtnState
  formState : FormState
  prevented : Bool
  ranValidation : Bool
deriving DecidableEq

/-- Embeds `handleClick(event)` (lines 268-275): short-circuit when
`debounce` returned exactly `false`; otherwise run `handleFormSubmit`
when validation is enabled, the button sits in a form, and its `type`
attribute is `submit`. -/
def handleClick (cfg : ButtonConfig) (env : ClickEnv) (form : Form)
    (freshId : Nat) (btn : BtnState) (fs : FormState) : ClickOut :=
  match debounce cfg btn freshId with
  | (r, btn1, prevented1) =>
      if r = some false then
        { btn := btn1, formState := fs, prevented := prevented1,
          ranValidation := false }
      else if cfg.enableValidation && env.hasForm
          && (env.typeAttr == some "submit") then
        match handleFormSubmit cfg form fs with
        | (fs1, prevented2) =>
            { btn := btn1, formState := fs1,
              prevented := prevented1 || prevented2, ranValidation := true }
      else
        { btn := btn1, formState := fs, prevented := prevented1,
          ranValidation := false }

/-- The three error classes a construction can throw (lines 146-182). -/
inductive ConstructError where
  | elementError | supportError | initError
deriving DecidableEq

/-- The root element as seen by the constructor checks: whether it is an
`HTMLElement` (the `elementType` of Button, line 240), and the names of
the attributes it carries. -/
structure RootElem where
  isHTMLElement : Bool
  attrNames : List String
deriving DecidableEq

/-- Embeds `Button.moduleName` (line 426). -/
def buttonModuleName : String := "govuk-button"

/-- The attribute marking an initialised component,
`data-${moduleName}-init` (lines 72 and 216). -/
def initAttr (moduleName : String) : String :=
  "data-" ++ moduleName ++ "-init"

/-- Embeds `isInitialised($root, moduleName)` (lines 71-73). -/
def isInitialised (root : RootElem) (moduleName : String) : Bool :=
  root.isHTMLElement && root.attrNames.contains (initAttr moduleName)

/-- The page `<body>`: `none` when missing, otherwise its class list. -/
structure PageBody where
  classes : List String
deriving DecidableEq

/-- Embeds `isSupported($scope)` (lines 84-89) applied to
`document.body`. -/
def isSupported (body : Option PageBody) : Bool :=
  match body with
  | none => false
  | some b => b.classes.contains "govuk-frontend-supported"

/-- Embeds the `GOVUKFrontendComponent` constructor (lines 197-217) as
run for `Button` (whose `moduleName` is the string `"govuk-button"`, so
the `typeof` check of line 200 passes): a `null` or non-`HTMLElement`
root throws `ElementError`; then `checkSupport` throws `SupportError`
on an unsupported page; then `checkInitialised` throws `InitError` when
the root already carries the init attribute; finally the init attribute
is set. -/
def componentConstruct (root : Option RootElem) (body : Option PageBody) :
    Except ConstructError RootElem :=
  match root with
  | none => Except.error ConstructError.elementError
  | some r =>
      if !r.isHTMLElement then Except.error ConstructError.elementError
      else if !isSupported body then Except.error ConstructError.supportError
      else if buttonModuleName != "" && isInitialised r buttonModuleName then
        Except.error ConstructError.initError
      else Except.ok { r with attrNames := r.attrNames ++ [initAttr buttonModuleName] }

/-- A successfully constructed Button: its (now initialised) root and
the event listeners attached to it.  The config merge and
`closest('form')` lookup of lines 258-259 are not represented; no claim
about construction depends on them. -/
structure ButtonInstance where
  root : RootElem
  listeners : List String
deriving DecidableEq

/-- Embeds the `Button` constructor (lines 254-262) as far as event
registration: `super($root)` runs the component checks, and only after
they pass are the `keydown` and `click` listeners added (lines
260-261). -/
def buttonConstruct (root : Option RootElem) (body : Option PageBody) :
    Except ConstructError ButtonInstance :=
  match componentConstruct root body with
  | Except.error e => Except.error e
  | Except.ok r => Except.ok { root := r, listeners := ["keydown", "click"] }

/-- The listeners a construction attempt attached to the root: none when
the constructor threw. -/
def listenersAttached : Except ConstructError ButtonInstance → List String
  | Except.error _ => []
  | Except.ok b => b.listeners

/-! Concrete inputs used by counterexamples and witnesses. -/

/-- An empty text input with selector target, sitting in group 1. -/
def emailElem : Elem :=
  { eid := 5, itype := InputType.other, checked := false, nameAttr := none,
    value := "", groupId := some 1 }

/-- A radio input without a `name` attribute. -/
def strayRadio : Elem :=
  { eid := 9, itype := InputType.radio, checked := true, nameAttr := none,
    value := "", groupId := some 1 }

/-- A form holding just the empty email input. -/
def exampleForm : Form :=
  { bySelector := [("#email", emailElem)], inputs := [emailElem] }

/-- A pristine decoration state with one group containing a field. -/
def exampleState : FormState :=
  { groups := [{ gid := 1, hasErrorClass := false, inlineErrors := [],
                 hasField := true }],
    summary := none, focused := none }

/-- A config whose `validationMessages` entry for `email` is the empty
string. -/
def cfgEmptyMessage : ButtonConfig :=
  { preventDoubleClick := false, enableValidation := true,
    validationSelectors := [("email", "#email")],
    validationMessages := [("email", "")],
    focusOnError := true, showErrorSummary := true }

/-- A config with validation on but `focusOnError` off. -/
def cfgNoFocus : ButtonConfig :=
  { preventDoubleClick := false, enableValidation := true,
    validationSelectors := [("email", "#email")],
    validationMessages := [],
    focusOnError := false, showErrorSummary := true }

/-- The Button defaults (lines 427-434) in schema shape. -/
def buttonDefaultsCfg : ButtonConfig :=
  { preventDoubleClick := false, enableValidation := false,
    validationSelectors := [], validationMessages := [],
    focusOnError := true, showErrorSummary := true }

/-- A host `Number(·)` stub for witnesses. -/
def num0 : String → Int := fun _ => 7

/-- A host `isFinite(Number(·))` stub for witnesses: only `"42"` parses. -/
def finite0 : String → Bool := fun s => s == "42"

/-- An already-initialised, supported root element. -/
def root0 : RootElem :=
  { isHTMLElement := true, attrNames := ["data-govuk-button-init"] }

/-- A supported page body. -/
def body0 : Option PageBody :=
  some { classes := ["govuk-frontend-supported"] }

/-- A config with both double-click prevention and validation enabled. -/
def cfgC2 : ButtonConfig :=
  { preventDoubleClick := true, enableValidation := true,
    validationSelectors := [("email", "#email")],
    validationMessages := [],
    focusOnError := true, showErrorSummary := true }

/-- A debounce state whose timer (id 1) is still pending. -/
def btnPending : BtnState := { debounceFormSubmitTimer := some 1 }

/-- A submit button inside a form. -/
def envSubmit : ClickEnv := { hasForm := true, typeAttr := some "submit" }

/-! Helper lemmas about `setKey`, `merge2` and lookups. -/

theorem lookup_cons_pair (k' k1 : String) (v1 : CVal) (l : Obj) :
    List.lookup k' ((k1, v1) :: l) =
      if k' = k1 then some v1 else List.lookup k' l := by
  by_cases h : k' = k1
  · have hb : (k' == k1) = true := beq_iff_eq.mpr h
    simp [List.lookup, hb, h]
  · have hb : (k' == k1) = false := beq_eq_false_iff_ne.mpr h
    simp [List.lookup, hb, h]

theorem lookup_setKey (a : Obj) (k k' : String) (v : CVal) :
    List.lookup k' (setKey a k v) =
      if k' = k then some v else List.lookup k' a := by
  induction a with
  | nil => simp [setKey, lookup_cons_pair]
  | cons hd rest ih =>
      obtain ⟨k1, v1⟩ := hd
      by_cases h1 : k1 = k
      · subst h1
        by_cases h2 : k' = k1 <;> simp [setKey, lookup_cons_pair, h2]
      · by_cases h2 : k' = k1
        · have h3 : ¬k' = k := fun hc => h1 (h2.symm.trans hc)
          simp [setKey, h1, lookup_cons_pair, h2, h3]
        · by_cases h3 : k' = k
          · subst h3
            have h4 : ¬k' = k1 := h2
            simp [setKey, h1, lookup_cons_pair, h2, h4, ih]
          · simp [setKey, h1, lookup_cons_pair, h2, h3, ih]

theorem merge2_nil (a : Obj) : merge2 a [] = a := by
  simp [merge2]

theorem merge2_cons (a : Obj) (k1 : String) (v : CVal) (rest : Obj) :
    merge2 a ((k1, v) :: rest) =
      merge2 (setKey a k1 (combineV (List.lookup k1 a) v)) rest := by
  cases v with
  | vobj o2 =>
      cases hl : List.lookup k1 a with
      | none => simp [merge2, combineV, hl]
      | some w => cases w <;> simp [merge2, combineV, hl]
  | vnull => simp [merge2, combineV]
  | vbool b => simp [merge2, combineV]
  | vnum n => simp [merge2, combineV]
  | vstr s => simp [merge2, combineV]
  | varr xs => simp [merge2, combineV]

theorem combineSpec_none_right (x : Option CVal) : combineSpec x none = x := by
  cases x with
  | none => rfl
  | some w => cases w <;> rfl

theorem combineSpec_none_left (y : Option CVal) : combineSpec none y = y := by
  cases y with
  | none => rfl
  | some w => cases w <;> rfl

theorem combineSpec_some (x : Option CVal) (v : CVal) :
    combineSpec x (some v) = some (combineV x v) := by
  cases x with
  | none => cases v <;> rfl
  | some w => cases w <;> cases v <;> rfl

theorem lookup_eq_none_of_not_mem_keys (l : Obj) (k : String)
    (h : k ∉ l.map Prod.fst) : List.lookup k l = none := by
  induction l with
  | nil => rfl
  | cons hd rest ih =>
      obtain ⟨k1, v1⟩ := hd
      simp only [List.map, List.mem_cons] at h
      push_neg at h
      rw [lookup_cons_pair, if_neg h.1]
      exact ih h.2

/-- Key characterisation of `merge2`: looking up any key in the merge of
an accumulated object with an incoming (duplicate-free) object yields
the per-key combination of the two lookups. -/
theorem lookup_merge2 (b : Obj) (a : Obj) (hb : keysNodup b) (k : String) :
    List.lookup k (merge2 a b) =
      combineSpec (List.lookup k a) (List.lookup k b) := by
  induction b generalizing a with
  | nil => simp [merge2_nil, combineSpec_none_right, List.lookup]
  | cons hd rest ih =>
      obtain ⟨k1, v⟩ := hd
      have hb' : keysNodup rest := by
        unfold keysNodup at hb ⊢
        simp only [List.map, List.nodup_cons] at hb
        exact hb.2
      have hk1 : k1 ∉ rest.map Prod.fst := by
        unfold keysNodup at hb
        simp only [List.map, List.nodup_cons] at hb
        exact hb.1
      rw [merge2_cons, ih _ hb', lookup_setKey, lookup_cons_pair]
      by_cases h : k = k1
      · subst h
        rw [if_pos rfl, if_pos rfl,
          lookup_eq_none_of_not_mem_keys rest k hk1,
          combineSpec_none_right, combineSpec_some]
      · rw [if_neg h, if_neg h]

/-- Claim C1: merging the static defaults, the passed-in config and the
schema-normalised dataset config with `mergeConfigs` (as the `Button`
constructor does on line 258) gives, at every key, the value of the
highest-priority source that sets it — dataset over passed config over
defaults — except that two non-array objects are merged key-wise
recursively (`combineSpec` states this per-key rule in the spec's
words).  The hypotheses record that JS objects have no duplicate
keys. -/
theorem mergeConfigs_priority (d c ds : Obj)
    (hd : keysNodup d) (hc : keysNodup c) (hds : keysNodup ds)
    (k : String) :
    List.lookup k (mergeConfigs [d, c, ds]) =
      combineSpec (combineSpec (List.lookup k d) (List.lookup k c))
        (List.lookup k ds) := by
  have h1 : mergeConfigs [d, c, ds] = merge2 (merge2 (merge2 [] d) c) ds := by
    simp [mergeConfigs, List.foldl]
  rw [h1, lookup_merge2 ds _ hds, lookup_merge2 c _ hc,
    lookup_merge2 d _ hd]
  have h2 : List.lookup k ([] : Obj) = none := rfl
  rw [h2, combineSpec_none_left]

/-- Witness for C1: the Button defaults merged with a passed config that
flips `preventDoubleClick` and a dataset config that also sets it; at
the key `preventDoubleClick` the dataset (highest priority) wins. -/
theorem mergeConfigs_priority_witness :
    keysNodup buttonDefaultsObj ∧
    keysNodup [("preventDoubleClick", CVal.vbool true)] ∧
    keysNodup [("preventDoubleClick", CVal.vbool false),
               ("focusOnError", CVal.vbool false)] ∧
    List.lookup "preventDoubleClick"
        (mergeConfigs [buttonDefaultsObj,
          [("preventDoubleClick", CVal.vbool true)],
          [("preventDoubleClick", CVal.vbool false),
           ("focusOnError", CVal.vbool false)]]) =
      combineSpec
        (combineSpec
          (List.lookup "preventDoubleClick" buttonDefaultsObj)
          (List.lookup "preventDoubleClick"
            [("preventDoubleClick", CVal.vbool true)]))
        (List.lookup "preventDoubleClick"
          [("preventDoubleClick", CVal.vbool false),
           ("focusOnError", CVal.vbool false)]) :=
  ⟨by decide, by decide, by decide,
    mergeConfigs_priority _ _ _ (by decide) (by decide) (by decide) _⟩

/-- Claim C8: without a schema type, `normaliseString` coerces by trial
parsing — a value trimming to `true`/`false` becomes the corresponding
boolean, a value whose trimmed form is non-empty and parses to a finite
number (per the host's `Number`/`isFinite`, passed as `num`/`finite`)
becomes that number, and any other value stays the original string.  The
hypotheses record that in JS `Number('true')` and `Number('false')` are
`NaN`, hence not finite. -/
theorem string_eq_empty_of_length_eq_zero {s : String}
    (h : s.length = 0) : s = "" := by
  cases s with
  | mk l =>
      simp [String.length] at h
      simp [h]

theorem normaliseString_trial (num : String → Int) (finite : String → Bool)
    (htrue : finite "true" = false) (hfalse : finite "false" = false)
    (value : String) :
    (jsTrim value = "true" →
      normaliseString num finite value none = CVal.vbool true) ∧
    (jsTrim value = "false" →
      normaliseString num finite value none = CVal.vbool false) ∧
    (jsTrim value ≠ "" → finite (jsTrim value) = true →
      normaliseString num finite value none = CVal.vnum (num (jsTrim value))) ∧
    (jsTrim value ≠ "true" → jsTrim value ≠ "false" →
      (jsTrim value = "" ∨ finite (jsTrim value) = false) →
      normaliseString num finite value none = CVal.vstr value) := by
  refine ⟨?_, ?_, ?_, ?_⟩
  · intro h
    simp [normaliseString, h, htrue]
  · intro h
    simp [normaliseString, h, hfalse]
  · intro h1 h2
    have hlen : (jsTrim value).length ≠ 0 := by
      intro hc
      exact h1 (string_eq_empty_of_length_eq_zero hc)
    simp [normaliseString, hlen, h2]
  · intro h1 h2 h3
    rcases h3 with h3 | h3
    · simp [normaliseString, h1, h2, h3]
    · by_cases hlen : (jsTrim value).length = 0
      · simp [normaliseString, h1, h2, hlen, h3]
      · simp [normaliseString, h1, h2, hlen, h3]

/-- Witness for C8: with a host parse in which only `"42"` is a finite
number (and `Number('true')`, `Number('false')` are not), the attribute
value `" 42 "` is coerced to that number. -/
theorem normaliseString_trial_witness :
    finite0 "true" = false ∧ finite0 "false" = false ∧
    normaliseString num0 finite0 " 42 " none = CVal.vnum (num0 (jsTrim " 42 ")) :=
  ⟨rfl, rfl,
    (normaliseString_trial num0 finite0 rfl rfl " 42 ").2.2.1
      (by decide) (by decide)⟩

theorem resetGroup_addOne (gs : List Group) (e : Err) :
    (addErrorToGroups gs e).map resetGroup = gs.map resetGroup := by
  unfold addErrorToGroups
  cases e.element.groupId with
  | none => rfl
  | some gid =>
      simp only [List.map_map]
      apply List.map_congr_left
      intro g _
      by_cases h : g.gid = gid <;> simp [Function.comp, resetGroup, h]

theorem resetGroup_foldl (errors : List Err) (gs : List Group) :
    ((errors.foldl addErrorToGroups gs).map resetGroup) =
      gs.map resetGroup := by
  induction errors generalizing gs with
  | nil => rfl
  | cons e rest ih => simp [List.foldl, ih, resetGroup_addOne]

theorem resetGroup_map_map (gs : List Group) :
    ((gs.map resetGroup).map resetGroup) = gs.map resetGroup := by
  simp only [List.map_map]
  apply List.map_congr_left
  intro g _
  rfl

theorem clearErrors_clearErrors (st : FormState) :
    clearErrors (clearErrors st) = clearErrors st := by
  simp only [clearErrors, resetGroup_map_map]

theorem showErrors_groups (cfg : ButtonConfig) (errors : List Err)
    (st : FormState) :
    (showErrors cfg errors st).groups =
      errors.foldl addErrorToGroups st.groups := by
  unfold showErrors createErrorSummary
  split <;> rfl

theorem showErrors_summary (cfg : ButtonConfig) (errors : List Err)
    (st : FormState) :
    (showErrors cfg errors st).summary =
      if cfg.showErrorSummary && !errors.isEmpty then
        some (errors.map Err.message)
      else st.summary := by
  unfold showErrors createErrorSummary
  split <;> rfl

theorem showErrors_focused (cfg : ButtonConfig) (errors : List Err)
    (st : FormState) :
    (showErrors cfg errors st).focused = st.focused := by
  unfold showErrors createErrorSummary
  split <;> rfl

theorem clearErrors_of_decorated (cfg : ButtonConfig) (errors : List Err)
    (st : FormState) (v : Option Nat) :
    clearErrors { showErrors cfg errors (clearErrors st) with focused := v } =
      { clearErrors st with focused := v } := by
  apply FormState.ext
  · simp [clearErrors, showErrors_groups, resetGroup_foldl,
      resetGroup_map_map]
    exact fun a _ => rfl
  · rfl
  · rfl

theorem clearErrors_of_shown (cfg : ButtonConfig) (errors : List Err)
    (st : FormState) :
    clearErrors (showErrors cfg errors (clearErrors st)) =
      { clearErrors st with
          focused := (showErrors cfg errors (clearErrors st)).focused } := by
  apply FormState.ext
  · simp [clearErrors, showErrors_groups, resetGroup_foldl,
      resetGroup_map_map]
    exact fun a _ => rfl
  · rfl
  · rfl

theorem showErrors_focus_irrel (cfg : ButtonConfig) (errors : List Err)
    (st : FormState) (v : Option Nat) :
    showErrors cfg errors { st with focused := v } =
      { showErrors cfg errors st with focused := v } := by
  apply FormState.ext
  · simp [showErrors_groups]
  · simp [showErrors_summary]
  · simp [showErrors_focused]

/-- Claim C5: `handleFormSubmit` clears all prior error decorations
before rendering — its result does not depend on the decorations already
present (first conjunct: starting from the cleared state changes
nothing) — and a second submit over unchanged form state reproduces
exactly the decorations of the first (second conjunct: idempotence on
the form state). -/
theorem handleFormSubmit_clears_and_idem (cfg : ButtonConfig) (form : Form)
    (st : FormState) :
    handleFormSubmit cfg form st = handleFormSubmit cfg form (clearErrors st) ∧
    handleFormSubmit cfg form (handleFormSubmit cfg form st).1 =
      handleFormSubmit cfg form st := by
  constructor
  · unfold handleFormSubmit
    cases h : computeErrors cfg form with
    | nil => simp [clearErrors_clearErrors]
    | cons e0 rest => simp [clearErrors_clearErrors]
  · cases h : computeErrors cfg form with
    | nil =>
        simp [handleFormSubmit, h, clearErrors_clearErrors]
    | cons e0 rest =>
        simp only [handleFormSubmit, h]
        by_cases hf : cfg.focusOnError
        · simp only [hf, reduceIte]
          rw [clearErrors_of_decorated, showErrors_focus_irrel]
        · simp only [Bool.not_eq_true] at hf
          simp only [hf, Bool.false_eq_true, if_false]
          rw [clearErrors_of_shown, showErrors_focus_irrel]

/-- Claim C4: after the validation pass, the `govuk-error-summary`
element sits at the top of the form (the `summary` slot) exactly when
`showErrorSummary` is set and the pass produced at least one error — and
it then lists the error messages; in every other case the pass leaves no
summary (a pre-existing one having been removed by `clearErrors`). -/
theorem errorSummary_condition (cfg : ButtonConfig) (form : Form)
    (st : FormState) :
    (handleFormSubmit cfg form st).1.summary =
      if cfg.showErrorSummary && !(computeErrors cfg form).isEmpty then
        some ((computeErrors cfg form).map Err.message)
      else none := by
  cases h : computeErrors cfg form with
  | nil => simp [handleFormSubmit, h, clearErrors]
  | cons e0 rest =>
      simp only [handleFormSubmit, h]
      by_cases hf : cfg.focusOnError
      · simp only [hf, reduceIte]
        rw [showErrors_summary]
        simp [clearErrors]
      · simp only [Bool.not_eq_true] at hf
        simp only [hf, Bool.false_eq_true, if_false]
        rw [showErrors_summary]
        simp [clearErrors]

/-- Claim C7 counterexample: with `focusOnError` disabled (a
configuration the claim does not exclude), a submit pass that produces
one error (for the element with id 5) leaves focus untouched instead of
focusing the first invalid field. -/
theorem focus_counterexample :
    (computeErrors cfgNoFocus exampleForm).map (fun e => e.element.eid)
        = [5] ∧
    (handleFormSubmit cfgNoFocus exampleForm exampleState).1.focused
        = none := by
  constructor <;> rfl

/-- Claim C7 (amended): whenever the validation pass produces at least
one error and `focusOnError` is enabled (its default), the element of
the first entry of the error list receives focus after the errors are
rendered. -/
theorem focus_first_error (cfg : ButtonConfig) (form : Form)
    (st : FormState) (e0 : Err) (rest : List Err)
    (hfoc : cfg.focusOnError = true)
    (herr : computeErrors cfg form = e0 :: rest) :
    (handleFormSubmit cfg form st).1.focused = some e0.element.eid := by
  simp [handleFormSubmit, herr, hfoc]

/-- Witness for C7 (amended): the default-config pass over the example
form focuses the empty email input (element id 5). -/
theorem focus_first_error_witness :
    cfgEmptyMessage.focusOnError = true ∧
    computeErrors cfgEmptyMessage exampleForm =
      [⟨"email", emailElem, defaultRequiredMessage⟩] ∧
    (handleFormSubmit cfgEmptyMessage exampleForm exampleState).1.focused =
      some emailElem.eid :=
  ⟨rfl, rfl,
    focus_first_error cfgEmptyMessage exampleForm exampleState
      ⟨"email", emailElem, defaultRequiredMessage⟩ [] rfl rfl⟩

/-- Claim C10: a radio element whose `name` attribute is absent or empty
is reported invalid by `validateElement` regardless of its own `checked`
state (the `name ? … : false` guard on line 321). -/
theorem radio_without_name_invalid (form : Form) (e : Elem)
    (hr : e.itype = InputType.radio)
    (hn : e.nameAttr = none ∨ e.nameAttr = some "") :
    validateElement form e = false := by
  rcases hn with hn | hn <;> simp [validateElement, hr, hn]

/-- Witness for C10: the checked but nameless radio `strayRadio` is
invalid. -/
theorem radio_without_name_invalid_witness :
    strayRadio.itype = InputType.radio ∧ strayRadio.nameAttr = none ∧
    strayRadio.checked = true ∧
    validateElement exampleForm strayRadio = false :=
  ⟨rfl, rfl, rfl,
    radio_without_name_invalid exampleForm strayRadio rfl (Or.inl rfl)⟩

theorem validateStep_mem (cfg : ButtonConfig) (form : Form)
    (acc : List Err) (fs : String × String) (err : Err)
    (h : err ∈ validateStep cfg form acc fs) :
    err ∈ acc ∨ err.message = fieldMessage cfg err.field := by
  unfold validateStep at h
  split at h
  · exact Or.inl h
  · split at h
    · exact Or.inl h
    · rcases List.mem_append.mp h with h | h
      · exact Or.inl h
      · rcases List.mem_singleton.mp h with rfl
        exact Or.inr rfl

theorem foldl_validateStep_message (cfg : ButtonConfig) (form : Form)
    (sels : List (String × String)) (acc : List Err) (err : Err)
    (h : err ∈ sels.foldl (validateStep cfg form) acc) :
    err ∈ acc ∨ err.message = fieldMessage cfg err.field := by
  induction sels generalizing acc with
  | nil => exact Or.inl h
  | cons hd rest ih =>
      rcases ih (validateStep cfg form acc hd) h with h1 | h1
      · exact validateStep_mem cfg form acc hd err h1
      · exact Or.inr h1

theorem foldl_validateStep_grows (cfg : ButtonConfig) (form : Form)
    (sels : List (String × String)) (acc : List Err) (err : Err)
    (h : err ∈ acc) :
    err ∈ sels.foldl (validateStep cfg form) acc := by
  induction sels generalizing acc with
  | nil => exact h
  | cons hd rest ih =>
      apply ih
      unfold validateStep
      split
      · exact h
      · split
        · exact h
        · exact List.mem_append_left _ h

theorem error_recorded_foldl (cfg : ButtonConfig) (form : Form)
    (sels : List (String × String)) (acc : List Err)
    (field sel : String) (e : Elem)
    (hmem : (field, sel) ∈ sels)
    (hfound : List.lookup sel form.bySelector = some e)
    (hinvalid : validateElement form e = false) :
    ∃ err ∈ sels.foldl (validateStep cfg form) acc,
      err.field = field ∧ err.element = e := by
  induction sels generalizing acc with
  | nil => cases hmem
  | cons hd rest ih =>
      rcases List.mem_cons.mp hmem with heq | hmem'
      · subst heq
        refine ⟨⟨field, e, fieldMessage cfg field⟩, ?_, rfl, rfl⟩
        rw [List.foldl_cons]
        apply foldl_validateStep_grows
        simp only [validateStep, hfound]
        rw [if_neg (by simp [hinvalid])]
        exact List.mem_append_right _ (List.mem_singleton.mpr rfl)
      · exact ih (validateStep cfg form acc hd) hmem'

/-- Claim C3 counterexample: with the `email` message configured as the
empty string (a configured entry), the recorded error's message is the
default `This field is required`, not the configured entry — the code's
`||` fallback also triggers on the empty string. -/
theorem validation_message_counterexample :
    List.lookup "email" cfgEmptyMessage.validationMessages = some "" ∧
    (computeErrors cfgEmptyMessage exampleForm).map Err.message =
      [defaultRequiredMessage] ∧
    ("" : String) ≠ defaultRequiredMessage := by
  refine ⟨rfl, rfl, by decide⟩

/-- Claim C3 (amended): `validateElement` fails a text input exactly when
its value trims to empty, returns a checkbox's checked state, and passes
a radio with a non-empty name iff some input of that name in the form is
checked; every error `handleFormSubmit` records carries the configured
`validationMessages` entry when that entry is non-empty, and the default
`This field is required` when no entry is configured or the configured
entry is the empty string; an invalid matched field always gets an error
recorded. -/
theorem validateElement_spec (form : Form) (e : Elem) (cfg : ButtonConfig) :
    (e.itype = InputType.other →
      (validateElement form e = false ↔ jsTrim e.value = "")) ∧
    (e.itype = InputType.checkbox → validateElement form e = e.checked) ∧
    (∀ n : String, e.itype = InputType.radio → e.nameAttr = some n →
      n ≠ "" →
      (validateElement form e = true ↔
        ∃ i ∈ form.inputs, i.nameAttr = some n ∧ i.checked = true)) ∧
    (∀ err, err ∈ computeErrors cfg form →
      err.message =
        match List.lookup err.field cfg.validationMessages with
        | some m => if m = "" then defaultRequiredMessage else m
        | none => defaultRequiredMessage) ∧
    (∀ field sel, (field, sel) ∈ cfg.validationSelectors →
      List.lookup sel form.bySelector = some e →
      validateElement form e = false →
      ∃ err ∈ computeErrors cfg form,
        err.field = field ∧ err.element = e) := by
  refine ⟨?_, ?_, ?_, ?_, ?_⟩
  · intro h
    simp [validateElement, h, bne]
  · intro h
    simp [validateElement, h]
  · intro n h hn hne
    simp [validateElement, h, hn, hne, hasCheckedInputNamed,
      List.any_eq_true, Bool.and_eq_true, beq_iff_eq]
  · intro err herr
    rcases foldl_validateStep_message cfg form cfg.validationSelectors []
      err herr with h | h
    · cases h
    · rw [h, fieldMessage]
  · intro field sel hmem hfound hinvalid
    exact error_recorded_foldl cfg form cfg.validationSelectors []
      field sel e hmem hfound hinvalid

/-- Witness for C3 (amended): the empty email input is invalid, and the
error the pass records for it carries the default message. -/
theorem validateElement_spec_witness :
    validateElement exampleForm emailElem = false ∧
    (∃ err ∈ computeErrors cfgEmptyMessage exampleForm,
      err.field = "email" ∧ err.element = emailElem) :=
  ⟨((validateElement_spec exampleForm emailElem cfgEmptyMessage).1
      rfl).mpr rfl,
    (validateElement_spec exampleForm emailElem cfgEmptyMessage).2.2.2.2
      "email" "#email" (List.mem_singleton.mpr rfl) rfl rfl⟩

/-- Claim C9: a configured `(field, selector)` entry whose selector
matches nothing in the form is skipped entirely by `handleFormSubmit`
(`if (!$element) continue`): the submit behaves exactly as if the entry
were absent — no error, no decoration, no prevented submission can come
from it. -/
theorem missingSelector_skipped (cfg : ButtonConfig) (form : Form)
    (st : FormState) (f sel : String)
    (pre post : List (String × String))
    (hmiss : List.lookup sel form.bySelector = none) :
    handleFormSubmit
        { cfg with validationSelectors := pre ++ (f, sel) :: post } form st =
      handleFormSubmit
        { cfg with validationSelectors := pre ++ post } form st := by
  have hstep :
      validateStep { cfg with validationSelectors := pre ++ (f, sel) :: post }
          form =
        validateStep { cfg with validationSelectors := pre ++ post } form :=
    rfl
  have hce :
      computeErrors
          { cfg with validationSelectors := pre ++ (f, sel) :: post } form =
        computeErrors { cfg with validationSelectors := pre ++ post } form := by
    show List.foldl _ [] (pre ++ (f, sel) :: post) =
      List.foldl _ [] (pre ++ post)
    rw [List.foldl_append, List.foldl_append, List.foldl_cons]
    rw [hstep]
    have hskip : ∀ acc : List Err,
        validateStep { cfg with validationSelectors := pre ++ post } form
          acc (f, sel) = acc := by
      intro acc
      simp only [validateStep, hmiss]
    rw [hskip]
  unfold handleFormSubmit
  rw [hce]
  rfl

/-- Witness for C9: with the `email` selector targeting an id absent
from the example form, adding that entry to an empty selector list
changes nothing about the submit. -/
theorem missingSelector_skipped_witness :
    List.lookup "#absent" exampleForm.bySelector = none ∧
    handleFormSubmit
        { cfgNoFocus with validationSelectors := [] ++ ("email", "#absent") :: [] }
        exampleForm exampleState =
      handleFormSubmit { cfgNoFocus with validationSelectors := [] ++ [] }
        exampleForm exampleState :=
  ⟨rfl,
    missingSelector_skipped cfgNoFocus exampleForm exampleState
      "email" "#absent" [] [] rfl⟩

/-- Claim C2: with `preventDoubleClick` enabled, a click arriving while
the debounce timer is still pending is suppressed — the event's default
is prevented and the handler returns without running submit validation
or touching any state — and once the timer has expired (resetting
`debounceFormSubmitTimer` to `null`), the next click stores the fresh
timer id (starting a new 1-second window) and is handled normally,
running validation exactly under the usual submit conditions. -/
theorem debounce_click_suppressed (cfg : ButtonConfig) (env : ClickEnv)
    (form : Form) (freshId freshId2 : Nat) (btn : BtnState) (fs : FormState)
    (hpdc : cfg.preventDoubleClick = true)
    (hpending : jsTruthyTimer btn.debounceFormSubmitTimer = true) :
    (handleClick cfg env form freshId btn fs).prevented = true ∧
    (handleClick cfg env form freshId btn fs).ranValidation = false ∧
    (handleClick cfg env form freshId btn fs).formState = fs ∧
    (handleClick cfg env form freshId btn fs).btn = btn ∧
    (handleClick cfg env form freshId2 (timerExpire btn) fs).btn.debounceFormSubmitTimer
        = some freshId2 ∧
    (handleClick cfg env form freshId2 (timerExpire btn) fs).ranValidation
        = (cfg.enableValidation && env.hasForm
            && (env.typeAttr == some "submit")) := by
  refine ⟨?_, ?_, ?_, ?_, ?_, ?_⟩
  · simp [handleClick, debounce, hpdc, hpending]
  · simp [handleClick, debounce, hpdc, hpending]
  · simp [handleClick, debounce, hpdc, hpending]
  · simp [handleClick, debounce, hpdc, hpending]
  · by_cases hv : (cfg.enableValidation && env.hasForm
        && (env.typeAttr == some "submit")) = true
    · simp [handleClick, debounce, hpdc, timerExpire, jsTruthyTimer, hv]
    · simp only [Bool.not_eq_true] at hv
      simp [handleClick, debounce, hpdc, timerExpire, jsTruthyTimer, hv]
  · by_cases hv : (cfg.enableValidation && env.hasForm
        && (env.typeAttr == some "submit")) = true
    · simp [handleClick, debounce, hpdc, timerExpire, jsTruthyTimer, hv]
    · simp only [Bool.not_eq_true] at hv
      simp [handleClick, debounce, hpdc, timerExpire, jsTruthyTimer, hv]

/-- Witness for C2: a pending-timer click on a validating submit button
is suppressed, and the post-expiry click stores the new timer id 3 and
runs validation. -/
theorem debounce_click_suppressed_witness :
    cfgC2.preventDoubleClick = true ∧
    jsTruthyTimer btnPending.debounceFormSubmitTimer = true ∧
    (handleClick cfgC2 envSubmit exampleForm 2 btnPending exampleState).prevented
        = true ∧
    (handleClick cfgC2 envSubmit exampleForm 2 btnPending exampleState).ranValidation
        = false ∧
    (handleClick cfgC2 envSubmit exampleForm 3 (timerExpire btnPending)
        exampleState).btn.debounceFormSubmitTimer = some 3 ∧
    (handleClick cfgC2 envSubmit exampleForm 3 (timerExpire btnPending)
        exampleState).ranValidation
      = (cfgC2.enableValidation && envSubmit.hasForm
          && (envSubmit.typeAttr == some "submit")) :=
  ⟨rfl, rfl,
    (debounce_click_suppressed cfgC2 envSubmit exampleForm 2 3 btnPending
      exampleState rfl rfl).1,
    (debounce_click_suppressed cfgC2 envSubmit exampleForm 2 3 btnPending
      exampleState rfl rfl).2.1,
    (debounce_click_suppressed cfgC2 envSubmit exampleForm 2 3 btnPending
      exampleState rfl rfl).2.2.2.2.1,
    (debounce_click_suppressed cfgC2 envSubmit exampleForm 2 3 btnPending
      exampleState rfl rfl).2.2.2.2.2⟩

/-- Claim C6: constructing a Button on a root element that is an
`HTMLElement`, on a supported page, but already carrying the
`data-govuk-button-init` attribute, throws `InitError`, and the failed
construction attaches no event listeners; a missing or non-`HTMLElement`
root throws `ElementError`, and an unsupported page throws
`SupportError` — all synchronously, before any listener is attached. -/
theorem button_construct_errors (root : RootElem) (body : Option PageBody)
    (hhtml : root.isHTMLElement = true)
    (hsupp : isSupported body = true)
    (hinit : initAttr buttonModuleName ∈ root.attrNames) :
    buttonConstruct (some root) body =
        Except.error ConstructError.initError ∧
    listenersAttached (buttonConstruct (some root) body) = [] ∧
    (∀ b, buttonConstruct none b =
        Except.error ConstructError.elementError) ∧
    (∀ (r : RootElem) b, r.isHTMLElement = false →
      buttonConstruct (some r) b =
        Except.error ConstructError.elementError) ∧
    (∀ (r : RootElem) b, r.isHTMLElement = true → isSupported b = false →
      buttonConstruct (some r) b =
        Except.error ConstructError.supportError) := by
  have hini : isInitialised root "govuk-button" = true := by
    simp only [isInitialised, hhtml, Bool.true_and]
    simpa [buttonModuleName] using hinit
  refine ⟨?_, ?_, ?_, ?_, ?_⟩
  · simp [buttonConstruct, componentConstruct, hhtml, hsupp, hini,
      buttonModuleName]
  · simp [buttonConstruct, componentConstruct, listenersAttached, hhtml,
      hsupp, hini, buttonModuleName]
  · intro b
    rfl
  · intro r b hr
    simp [buttonConstruct, componentConstruct, hr]
  · intro r b hr hb
    simp [buttonConstruct, componentConstruct, hr, hb]

/-- Witness for C6: the already-initialised root on a supported page
fails with `InitError` and ends up with no listeners. -/
theorem button_construct_errors_witness :
    root0.isHTMLElement = true ∧
    isSupported body0 = true ∧
    initAttr buttonModuleName ∈ root0.attrNames ∧
    buttonConstruct (some root0) body0 =
      Except.error ConstructError.initError ∧
    listenersAttached (buttonConstruct (some root0) body0) = [] :=
  ⟨rfl, rfl, by decide,
    (button_construct_errors root0 body0 rfl rfl (by decide)).1,
    (button_construct_errors root0 body0 rfl rfl (by decide)).2.1⟩

end GovukButton
